import Mathlib

/-!
Shallow embedding of the hntui terminal Hacker-News client (src/main.go,
the version with the comments view and pagination).  Machine integers are
modelled as `Int`; Go's `/` on int truncates toward zero, which is
`Int.tdiv` (Lean's `/` on `Int` is Euclidean division and differs on
negative operands).  The remote HTTP calls, HTML-to-text conversion and
line wrapping are external collaborators: they are abstracted as an
abstract `reflow` function parameter and as message payloads.
-/

/-- Page size: `const MAX = 20` in src/main.go. -/
def MAX : Nat := 20

/-- A Hacker-News story item (struct `Story` in src/main.go). -/
structure Story where
  ID : Int
  By : String
  Time : Int
  Kids : List Int
  URL : String
  Score : Int
  Title : String
  Descendants : Int
  deriving DecidableEq, Inhabited, Repr

/-- A Hacker-News comment item (struct `Comment` in src/main.go). -/
structure Comment where
  ID : Int
  By : String
  Text : String
  Time : Int
  deriving DecidableEq, Inhabited, Repr

/-- The messages delivered to `Update` (src/main.go): window resizes,
the fetch-completion messages `loadedStoriesMsg` / `loadedCommentsMsg`
/ `errMsg`, and key presses (`tea.KeyMsg`, identified by its string).
`loadedStoriesMsg` carries a fixed-size array `[MAX]Story`, modelled as
a function out of `Fin MAX`. -/
inductive Msg where
  | windowSize (width height : Int)
  | loadedStories (loadedStories : Fin MAX → Story)
  | loadedComments (loadedComments : List Comment)
  | errMsg (e : String)
  | key (k : String)

/-- The commands a transition returns (`tea.Cmd` values in src/main.go):
`fetchTopStories`, the `fetchComments` closure over the selected story,
or `tea.Quit`.  `none` stands for Go's `nil` command. -/
inductive Cmd where
  | fetchTopStories
  | fetchComments (story : Story)
  | quit
  deriving DecidableEq

/-- The program state: struct `model` of src/main.go together with the
module-level variable `page` (a global in the source, threaded through
the state here so that transitions stay pure).  `stories` is the
fixed-size array `[MAX]Story`, so its length is the constant `MAX`. -/
structure Model where
  stories : Fin MAX → Story
  comments : List Comment
  commentHeights : List Int
  cursor : Int
  commentCursor : Int
  loading : Bool
  commentsView : Bool
  err : Option String
  width : Int
  height : Int
  page : Int

/-- `initialModel()` in src/main.go (zero values everywhere except
`loading: true`) together with the global `page = 0`. -/
def initialModel : Model :=
  { stories := fun _ => default
    comments := []
    commentHeights := []
    cursor := 0
    commentCursor := 0
    loading := true
    commentsView := false
    err := none
    width := 0
    height := 0
    page := 0 }

/-- Array indexing `m.stories[m.cursor]` of src/main.go.  Go panics on an
out-of-range index; that case is unreachable under the cursor invariant,
and the embedding returns the zero `Story` there to stay total. -/
def storyAt (stories : Fin MAX → Story) (i : Int) : Story :=
  if h : 0 ≤ i ∧ i < (MAX : Int) then stories ⟨i.toNat, by omega⟩ else default

/-- The transition function `Update` of src/main.go (the comments-view
version).  `reflow text width` abstracts the external collaborators of
`commentHeight`: `lipgloss.Height(wrap.String(html2text.HTML2Text(text),
width))`.  `Quit` returns the unchanged state plus the quit command; the
`enter` key fires the `openURL` side effect (outside the state machine)
and changes nothing. -/
def Update (reflow : String → Int → Int) (m : Model) (msg : Msg) :
    Model × Option Cmd :=
  match msg with
  | .windowSize w h => ({ m with width := w, height := h }, none)
  | .loadedStories st => ({ m with stories := st, loading := false }, none)
  | .loadedComments cs =>
      ({ m with comments := cs
                loading := false
                commentCursor := 0
                commentHeights := cs.map (fun c => reflow c.Text m.width) },
       none)
  | .errMsg e => ({ m with err := some e, loading := false }, none)
  | .key k =>
      if k = "ctrl+c" ∨ k = "q" then (m, some .quit)
      else if k = "up" ∨ k = "k" then
        if m.commentsView then
          (if m.commentCursor > 0 then
              { m with commentCursor := m.commentCursor - 1 }
            else m, none)
        else if m.cursor > 0 then ({ m with cursor := m.cursor - 1 }, none)
        else (m, none)
      else if k = "down" ∨ k = "j" then
        if m.commentsView then
          (if m.commentCursor < (m.comments.length : Int) - 1 then
              { m with commentCursor := m.commentCursor + 1 }
            else m, none)
        else if m.cursor < (MAX : Int) - 1 then
          ({ m with cursor := m.cursor + 1 }, none)
        else (m, none)
      else if k = "r" then ({ m with loading := true }, some .fetchTopStories)
      else if k = "c" then
        if !m.commentsView then
          ({ m with commentsView := true, loading := true },
           some (.fetchComments (storyAt m.stories m.cursor)))
        else ({ m with commentsView := false }, none)
      else if k = "pgup" ∨ k = "l" then
        ({ m with page := m.page + 1, loading := true }, some .fetchTopStories)
      else if k = "pgdown" ∨ k = "h" then
        ({ m with page := m.page - 1, loading := true }, some .fetchTopStories)
      else (m, none)

/-- The story-list windowing block of `View` (src/main.go, the
`visibleStart` / `visibleEnd` computation after the comments-view
branch), with `len(m.stories)` abstracted as `total`; the source always
instantiates `total = MAX = 20`.  Returns `(visibleStart, visibleEnd)`. -/
def visibleWindow (height total cursor : Int) : Int × Int :=
  if height > 0 then
    let maxVisible := Int.tdiv (height - 5) 3
    if maxVisible < total then
      let visibleStart := max (cursor - Int.tdiv maxVisible 2) 0
      let visibleEnd := visibleStart + maxVisible
      if visibleEnd > total then (max (total - maxVisible) 0, total)
      else (visibleStart, visibleEnd)
    else (0, total)
  else (0, total)

/-- The comments-list windowing block of `View` (src/main.go, inside the
`m.commentsView` branch), with `len(m.comments)` abstracted as `total`.
Unlike the story block it guards `maxVisible > 0` and uses the offset
`height - 2`. -/
def commentWindow (height total cursor : Int) : Int × Int :=
  if height > 0 then
    let maxVisible := Int.tdiv (height - 2) 3
    if maxVisible > 0 ∧ maxVisible < total then
      let visibleStart := max (cursor - Int.tdiv maxVisible 2) 0
      let visibleEnd := visibleStart + maxVisible
      if visibleEnd > total then (max (total - maxVisible) 0, total)
      else (visibleStart, visibleEnd)
    else (0, total)
  else (0, total)

/-- The page-slice computation of the fetch executor `fetchTopStories`
(src/main.go): given the global `page` and the length of the ranked id
list fetched from the API, it computes the possibly re-derived page and
the slice bounds `storiesID[start:end]`.  Returns `(page, start, end)`.
A result with `start < 0` means the Go slice expression would panic. -/
def fetchPageSlice (page : Int) (numIds : Nat) : Int × Int × Int :=
  let start := max 0 (page * (MAX : Int))
  let stop := start + (MAX : Int)
  if start ≥ (numIds : Int) then
    let page2 : Int := ((numIds / MAX : Nat) : Int) - 1
    let start2 := page2 * (MAX : Int)
    let stop2 := start2 + (MAX : Int)
    (page2, start2, if stop2 > (numIds : Int) then (numIds : Int) else stop2)
  else
    (page, start, if stop > (numIds : Int) then (numIds : Int) else stop)

/-- A concrete reflow collaborator used to instantiate closed theorems;
the claims under study never depend on the reflowed heights. -/
def reflowZero : String → Int → Int := fun _ _ => 0

/-- States reachable from the initial model by any sequence of messages,
under any reflow collaborator. -/
inductive Reachable : Model → Prop
  | init : Reachable initialModel
  | step (s : Model) (reflow : String → Int → Int) (msg : Msg) :
      Reachable s → Reachable (Update reflow s msg).1

/-- The cursor invariant the transition function actually maintains: the
story cursor stays in `[0, MAX)`, and the comment cursor is nonnegative,
is `0` whenever the comment list is empty, and is below the list length
whenever the list is nonempty. -/
def CursorInv (m : Model) : Prop :=
  0 ≤ m.cursor ∧ m.cursor < (MAX : Int) ∧
  0 ≤ m.commentCursor ∧
  (m.comments.length = 0 → m.commentCursor = 0) ∧
  (0 < m.comments.length → m.commentCursor < (m.comments.length : Int))

/-- A comment record used as the payload of a stale comments completion. -/
def staleComment : Comment :=
  { ID := 1, By := "alice", Text := "stale", Time := 0 }

/-- A state where the user opened the comments of story 0, toggled back to
the story list and moved the cursor to story 1 — i.e. navigated away
before the comments fetch completed. -/
def navigatedAway : Model :=
  (Update reflowZero
    ((Update reflowZero
      ((Update reflowZero initialModel (Msg.key "c")).1) (Msg.key "c")).1)
    (Msg.key "j")).1

/-- A state whose stored error was set by a failed fetch. -/
def erroredModel : Model :=
  (Update reflowZero initialModel (Msg.errMsg "boom")).1

/-- A state in comments mode with a nonempty fetched comment list. -/
def commentsOpen : Model :=
  (Update reflowZero ((Update reflowZero initialModel (Msg.key "c")).1)
    (Msg.loadedComments [{ ID := 2, By := "bob", Text := "hello", Time := 0 }])).1

/-- A state in comments mode (comments fetch still in flight). -/
def commentsMode : Model :=
  (Update reflowZero initialModel (Msg.key "c")).1

/-- C1 (counterexample): at terminal height 5 the story view computes
`maxVisible = (5-5)/3 = 0` without the guard the comments view has, so
with 20 stories and the cursor on story 0 the window is `(0, 0)`: it is
empty and does not contain the cursor, refuting the claim that the
window is never empty and always shows the cursor item. -/
theorem visibleWindow_small_height_cex :
    visibleWindow 5 20 0 = (0, 0) ∧
    ¬ ((visibleWindow 5 20 0).1 ≤ 0 ∧ 0 < (visibleWindow 5 20 0).2) := by
  decide

/-- C1 (amended): for every `total > 0`, every `cursor ∈ [0, total)` and
every height that is either nonpositive (window defaults to the whole
list) or at least 8 (so `maxVisible = (height-5)/3 ≥ 1`), the story-view
window satisfies `0 ≤ visibleStart ≤ cursor < visibleEnd ≤ total`; in
particular it is nonempty and contains the cursor.  For heights 1..7 the
source computes `maxVisible ≤ 0` and produces an empty or inverted
window. -/
theorem visibleWindow_bounds (height total cursor vs ve : Int)
    (htot : 0 < total) (hc0 : 0 ≤ cursor) (hc1 : cursor < total)
    (hh : height ≤ 0 ∨ 8 ≤ height)
    (heq : visibleWindow height total cursor = (vs, ve)) :
    0 ≤ vs ∧ vs ≤ cursor ∧ cursor < ve ∧ ve ≤ total := by
  simp only [visibleWindow] at heq
  rcases hh with hh | hh
  · rw [if_neg (by omega : ¬ height > 0)] at heq
    injection heq with e1 e2
    omega
  · rw [if_pos (by omega : height > 0)] at heq
    rw [Int.tdiv_eq_ediv (by omega : (0:Int) ≤ height - 5) (by omega : (0:Int) ≤ 3)] at heq
    set mv := (height - 5) / 3 with hmv
    have hmv1 : 1 ≤ mv := by omega
    rw [Int.tdiv_eq_ediv (by omega : (0:Int) ≤ mv) (by omega : (0:Int) ≤ 2)] at heq
    by_cases hlt : mv < total
    · rw [if_pos hlt] at heq
      split_ifs at heq with hcl
      · injection heq with e1 e2
        omega
      · injection heq with e1 e2
        omega
    · rw [if_neg hlt] at heq
      injection heq with e1 e2
      omega

/-- C1 (witness): at height 32, 20 stories and cursor 10 the window is
`(6, 15)` and the bounds hold. -/
theorem visibleWindow_bounds_witness :
    (0:Int) < 20 ∧ (0:Int) ≤ 10 ∧ (10:Int) < 20 ∧
    ((32:Int) ≤ 0 ∨ (8:Int) ≤ 32) ∧ visibleWindow 32 20 10 = (6, 15) ∧
    (0 ≤ (6:Int) ∧ (6:Int) ≤ 10 ∧ (10:Int) < 15 ∧ (15:Int) ≤ 20) :=
  ⟨by decide, by decide, by decide, Or.inr (by decide), by decide,
   visibleWindow_bounds 32 20 10 6 15 (by decide) (by decide) (by decide)
     (Or.inr (by decide)) (by decide)⟩

/-- C2 (counterexample): with 20 stories and `maxVisible = 9` (height 32),
cursor 10 yields the window `(6, 15)`, not the `(5, 14)` stated in the
spec: the code computes `start = cursor - 9/2 = cursor - 4`, so the
spec's own center-rule example is off by one. -/
theorem visibleWindow_center_cex :
    visibleWindow 32 20 10 = (6, 15) ∧ visibleWindow 32 20 10 ≠ (5, 14) := by
  decide

/-- C2 (amended): with 20 stories and `maxVisible = (32-5)/3 = 9`, the
windowing computation returns `(0, 9)` for cursor 0, `(11, 20)` for
cursor 19, and `(6, 15)` for cursor 10, following the center-then-clamp
algorithm of the source. -/
theorem visibleWindow_examples :
    Int.tdiv (32 - 5) 3 = 9 ∧
    visibleWindow 32 20 0 = (0, 9) ∧
    visibleWindow 32 20 19 = (11, 20) ∧
    visibleWindow 32 20 10 = (6, 15) := by
  decide
/-- Preservation of the cursor invariant by one transition. -/
theorem cursorInv_step (reflow : String → Int → Int) (m : Model) (msg : Msg)
    (h : CursorInv m) : CursorInv (Update reflow m msg).1 := by
  obtain ⟨h1, h2, h3, h4, h5⟩ := h
  cases msg with
  | windowSize w hgt => exact ⟨h1, h2, h3, h4, h5⟩
  | loadedStories st => exact ⟨h1, h2, h3, h4, h5⟩
  | loadedComments cs =>
      refine ⟨h1, h2, le_refl 0, fun _ => rfl, fun hl => ?_⟩
      have hl2 : 0 < cs.length := hl
      show (0:Int) < (cs.length : Int)
      exact_mod_cast hl2
  | errMsg e => exact ⟨h1, h2, h3, h4, h5⟩
  | key k =>
      obtain ⟨st, cms, ch, cur, cc, ld, cv, er, w, hgt, pg⟩ := m
      dsimp only at h1 h2 h3 h4 h5
      simp only [Update]
      split_ifs <;> (simp only [CursorInv]; omega)

/-- C3 (counterexample): the initial model is reachable, and delivering a
comments completion carrying an empty list (a story with no kids) leaves
the comment cursor at 0 with `len(comments) = 0`, so the claimed
invariant `commentCursor ∈ [0, len(comments))` fails: the interval is
empty. -/
theorem cursor_invariant_cex :
    ¬ (0 ≤ (Update reflowZero initialModel (Msg.loadedComments [])).1.commentCursor ∧
       (Update reflowZero initialModel (Msg.loadedComments [])).1.commentCursor <
         (((Update reflowZero initialModel (Msg.loadedComments [])).1.comments.length : Nat) : Int)) := by
  decide

/-- C3 (amended): every reachable state keeps the story cursor in
`[0, MAX)` and the comment cursor nonnegative, equal to 0 when the
comment list is empty and strictly below the list length when the list
is nonempty — the `[0, len)` bound holds exactly when the active list is
nonempty, and survives completions that change the list length. -/
theorem cursor_invariant (m : Model) (h : Reachable m) : CursorInv m := by
  induction h with
  | init => exact ⟨le_refl 0, by decide, le_refl 0, fun _ => rfl, fun hl => absurd hl (by decide)⟩
  | step s reflow msg _ ih => exact cursorInv_step reflow s msg ih

/-- C3 (witness): the invariant holds at the initial model. -/
theorem cursor_invariant_witness : CursorInv initialModel :=
  cursor_invariant initialModel Reachable.init

/-- C4 (counterexample): with 30 ranked ids the last page is page 1
(slice `[20, 30)`).  `NextPage` from it sets page 2, whose first slot 40
is past the end; the executor re-derives `page = 30/20 - 1 = 0` and
fetches `[0, 20)` — the last *full* page, not the same last page, so
the claim fails when the id count is not a multiple of `MAX`. -/
theorem fetchPageSlice_partial_page_cex :
    fetchPageSlice 2 30 = (0, 0, 20) ∧
    ¬ ((fetchPageSlice 2 30).2.1 = 20 ∧ (fetchPageSlice 2 30).2.2 = 30) := by
  decide

/-- C4 (amended): whenever the requested first slot `page * MAX` is at or
past the end of an id list holding at least one full page, the executor
re-derives `page = numIds/MAX - 1` and fetches that last full page; when
`numIds` is additionally a multiple of `MAX` that page is the last page
`[numIds - MAX, numIds)`, so `NextPage` at the last page re-fetches the
same page.  (For `numIds < MAX` the re-derived slice start is negative
and the Go slice expression panics.) -/
theorem fetchPageSlice_overflow_snap (page : Int) (numIds : Nat)
    (hge : MAX ≤ numIds) (hover : (numIds : Int) ≤ page * (MAX : Int)) :
    fetchPageSlice page numIds =
      (((numIds / MAX : Nat) : Int) - 1,
       ((numIds / MAX : Nat) : Int) * (MAX : Int) - (MAX : Int),
       ((numIds / MAX : Nat) : Int) * (MAX : Int)) ∧
    (0 ≤ ((numIds / MAX : Nat) : Int) * (MAX : Int) - (MAX : Int) ∧
     ((numIds / MAX : Nat) : Int) * (MAX : Int) ≤ (numIds : Int)) ∧
    (MAX ∣ numIds →
      fetchPageSlice page numIds =
        (((numIds / MAX : Nat) : Int) - 1,
         (numIds : Int) - (MAX : Int), (numIds : Int))) := by
  have key : fetchPageSlice page numIds =
      (((numIds / MAX : Nat) : Int) - 1,
       ((numIds / MAX : Nat) : Int) * (MAX : Int) - (MAX : Int),
       ((numIds / MAX : Nat) : Int) * (MAX : Int)) := by
    simp only [fetchPageSlice, MAX] at *
    push_cast at *
    split_ifs with hc1 hc2 <;>
      (simp only [Prod.mk.injEq, true_and, and_true]; push_cast at *; omega)
  refine ⟨key, by simp only [MAX] at hge ⊢; push_cast at hge ⊢; omega, fun hdvd => ?_⟩
  rw [key]
  have h20 : (20 : Nat) ∣ numIds := by simpa [MAX] using hdvd
  simp only [Prod.mk.injEq, MAX]
  push_cast
  refine ⟨by trivial, by omega, by omega⟩

/-- C4 (witness): the HN API serves 500 ranked ids; `NextPage` from the
last page 24 requests page 25 (first slot 500), and the executor snaps
back to page 24 and fetches the same last page `[480, 500)`. -/
theorem fetchPageSlice_overflow_snap_witness :
    MAX ≤ 500 ∧ ((500 : Nat) : Int) ≤ 25 * (MAX : Int) ∧ MAX ∣ 500 ∧
    fetchPageSlice 25 500 = (24, 480, 500) := by
  have h := (fetchPageSlice_overflow_snap 25 500 (by decide) (by decide)).2.2 (by decide)
  exact ⟨by decide, by decide, by decide, by rw [h]; decide⟩

/-- C5: `loadedCommentsMsg` carries no story id at all, so a stale
completion cannot be detected, let alone discarded: from the state where
the user opened story 0's comments, toggled back and moved to story 1,
the arriving stale completion is applied — it overwrites the comment
list, resets the comment cursor and clears the loading flag, contrary to
the claim that a mismatched completion produces no state change. -/
theorem stale_comments_applied :
    navigatedAway.commentsView = false ∧
    navigatedAway.cursor = 1 ∧
    navigatedAway.comments = [] ∧
    (Update reflowZero navigatedAway (Msg.loadedComments [staleComment])).1.comments
      = [staleComment] ∧
    (Update reflowZero navigatedAway (Msg.loadedComments [staleComment])).1.commentCursor = 0 ∧
    (Update reflowZero navigatedAway (Msg.loadedComments [staleComment])).1.loading = false := by
  exact ⟨rfl, rfl, rfl, rfl, rfl, rfl⟩

/-- C6: a successful stories completion does not clear the stored error:
after a failed fetch set `err = some "boom"`, delivering
`loadedStoriesMsg` replaces the slots and clears `loading` but leaves
`err` set, so the `View` error screen (whose own text offers `r` to
retry) persists forever, contrary to the claim that success clears the
error. -/
theorem stories_success_keeps_error :
    erroredModel.err = some "boom" ∧
    (Update reflowZero erroredModel (Msg.loadedStories (fun _ => default))).1.err
      = some "boom" ∧
    (Update reflowZero erroredModel (Msg.loadedStories (fun _ => default))).1.loading
      = false := by
  exact ⟨rfl, rfl, rfl⟩

/-- C7: from any state in Stories mode, toggling into Comments mode and
immediately toggling back (no completion in between) restores the story
cursor and the page index, and returns the mode to Stories. -/
theorem toggle_round_trip (r1 r2 : String → Int → Int) (m : Model)
    (h : m.commentsView = false) :
    ((Update r2 ((Update r1 m (Msg.key "c")).1) (Msg.key "c")).1).cursor = m.cursor ∧
    ((Update r2 ((Update r1 m (Msg.key "c")).1) (Msg.key "c")).1).page = m.page ∧
    ((Update r2 ((Update r1 m (Msg.key "c")).1) (Msg.key "c")).1).commentsView = false := by
  obtain ⟨st, cms, ch, cur, cc, ld, cv, er, w, hgt, pg⟩ := m
  cases cv
  · exact ⟨rfl, rfl, rfl⟩
  · exact Bool.noConfusion h

/-- C7 (witness): the round trip from the initial model. -/
theorem toggle_round_trip_witness :
    initialModel.commentsView = false ∧
    (((Update reflowZero ((Update reflowZero initialModel (Msg.key "c")).1)
        (Msg.key "c")).1).cursor = initialModel.cursor ∧
     ((Update reflowZero ((Update reflowZero initialModel (Msg.key "c")).1)
        (Msg.key "c")).1).page = initialModel.page ∧
     ((Update reflowZero ((Update reflowZero initialModel (Msg.key "c")).1)
        (Msg.key "c")).1).commentsView = false) :=
  ⟨rfl, toggle_round_trip reflowZero reflowZero initialModel rfl⟩

/-- C8 (counterexample): leaving Comments mode does not clear the comment
list: from a comments-mode state with one fetched comment, pressing `c`
returns to Stories but the list is still nonempty, contrary to the
claim. -/
theorem leave_comments_not_cleared_cex :
    commentsOpen.commentsView = true ∧
    commentsOpen.comments ≠ [] ∧
    (Update reflowZero commentsOpen (Msg.key "c")).1.commentsView = false ∧
    (Update reflowZero commentsOpen (Msg.key "c")).1.comments ≠ [] := by
  refine ⟨rfl, ?_, rfl, ?_⟩ <;> decide

/-- C8 (amended): applying `ToggleComments` in Comments mode flips the
mode back to Stories, emits no command, and leaves every other field —
including the comment list, which is not cleared — unchanged. -/
theorem leave_comments (r : String → Int → Int) (m : Model)
    (h : m.commentsView = true) :
    Update r m (Msg.key "c") = ({ m with commentsView := false }, none) := by
  obtain ⟨st, cms, ch, cur, cc, ld, cv, er, w, hgt, pg⟩ := m
  cases cv
  · exact Bool.noConfusion h
  · rfl

/-- C8 (witness): leaving Comments mode from the concrete comments-mode
state. -/
theorem leave_comments_witness :
    commentsOpen.commentsView = true ∧
    Update reflowZero commentsOpen (Msg.key "c")
      = ({ commentsOpen with commentsView := false }, none) :=
  ⟨rfl, leave_comments reflowZero commentsOpen rfl⟩

/-- C9: `NextPage` (`pgup`/`l`) and `PrevPage` (`pgdown`/`h`) increment
respectively decrement the page with no clamp, set `loading` and emit
the stories fetch; in particular `PrevPage` at page 0 stores page `-1`.
The executor's snap only fires on forward overflow (`start ≥ numIds`),
and for a negative page the slice start clamps to `max(0, page*MAX) = 0`,
so the first page's stories are fetched while the stored page stays
negative. -/
theorem page_transitions (r : String → Int → Int) (m : Model) (p : Int)
    (numIds : Nat) (hneg : p < 0) (hpos : 0 < numIds) :
    Update r m (Msg.key "pgup")
      = ({ m with page := m.page + 1, loading := true }, some Cmd.fetchTopStories) ∧
    Update r m (Msg.key "pgdown")
      = ({ m with page := m.page - 1, loading := true }, some Cmd.fetchTopStories) ∧
    fetchPageSlice p numIds = (p, 0, min ((MAX : Nat) : Int) (numIds : Int)) := by
  refine ⟨rfl, rfl, ?_⟩
  simp only [fetchPageSlice]
  have hM : ((MAX : Nat) : Int) = 20 := rfl
  rw [hM]
  rw [show max 0 (p * (20:Int)) = 0 by omega]
  rw [if_neg (by omega : ¬ (0:Int) ≥ (numIds : Int))]
  simp only [Prod.mk.injEq, true_and, and_true]
  split_ifs <;> omega

/-- C9 (witness): `PrevPage` at page 0 (the initial model) stores page
`-1`, and the executor then fetches `[0, 20)` from the 500-id list while
the page stays `-1`. -/
theorem page_transitions_witness :
    (-1 : Int) < 0 ∧ (0 : Nat) < 500 ∧
    (Update reflowZero initialModel (Msg.key "pgup")
      = ({ initialModel with page := initialModel.page + 1, loading := true },
         some Cmd.fetchTopStories) ∧
     Update reflowZero initialModel (Msg.key "pgdown")
      = ({ initialModel with page := initialModel.page - 1, loading := true },
         some Cmd.fetchTopStories) ∧
     fetchPageSlice (-1) 500 = (-1, 0, min ((MAX : Nat) : Int) ((500 : Nat) : Int))) :=
  ⟨by decide, by decide,
   page_transitions reflowZero initialModel (-1) 500 (by decide) (by decide)⟩

/-- C10: `Refresh` (`r`) in Comments mode only sets `loading` and emits
the stories fetch — never a comments fetch — leaving mode, comment list
and comment cursor unchanged; the subsequent stories completion replaces
only the story slots and the loading flag, so the state stays in
Comments mode showing the previously fetched thread over the new story
list. -/
theorem refresh_in_comments (r : String → Int → Int) (m : Model)
    (h : m.commentsView = true) (st : Fin MAX → Story) :
    Update r m (Msg.key "r")
      = ({ m with loading := true }, some Cmd.fetchTopStories) ∧
    ({ m with loading := true } : Model).commentsView = true ∧
    Update r ({ m with loading := true }) (Msg.loadedStories st)
      = ({ m with loading := false, stories := st }, none) ∧
    ({ m with loading := false, stories := st } : Model).commentsView = true ∧
    ({ m with loading := false, stories := st } : Model).comments = m.comments ∧
    ({ m with loading := false, stories := st } : Model).commentCursor
      = m.commentCursor := by
  exact ⟨rfl, h, rfl, h, rfl, rfl⟩

/-- C10 (witness): refresh and completion from the concrete comments-mode
state. -/
theorem refresh_in_comments_witness :
    commentsMode.commentsView = true ∧
    (Update reflowZero commentsMode (Msg.key "r")
      = ({ commentsMode with loading := true }, some Cmd.fetchTopStories) ∧
     ({ commentsMode with loading := true } : Model).commentsView = true ∧
     Update reflowZero ({ commentsMode with loading := true })
        (Msg.loadedStories (fun _ => default))
      = ({ commentsMode with loading := false, stories := fun _ => default }, none) ∧
     ({ commentsMode with loading := false, stories := fun _ => default } : Model).commentsView = true ∧
     ({ commentsMode with loading := false, stories := fun _ => default } : Model).comments
       = commentsMode.comments ∧
     ({ commentsMode with loading := false, stories := fun _ => default } : Model).commentCursor
       = commentsMode.commentCursor) :=
  ⟨rfl, refresh_in_comments reflowZero commentsMode rfl (fun _ => default)⟩
